import Mathlib

/-
Shallow embedding of the resilient streaming core of the noaa consumer
(src/consumer/async.go).  Go error values are modelled by an explicit
inductive type; channels are modelled by the ordered list of values sent
on them; goroutine-local control flow is modelled by explicit state
passing.  Each definition cites the source lines it embeds.
-/

namespace Noaa

/-- Go error values produced or forwarded by src/consumer/async.go.
`msg s` embeds `errors.New(s)`; `unauthorized body` embeds
`noaa_errors.NewUnauthorizedError(body)` (async.go:301); `external s`
stands for an error value produced outside the repository (the websocket
library or the network) and carried through unchanged. -/
inductive GoError
  | msg (s : String)
  | unauthorized (body : String)
  | external (s : String)
deriving DecidableEq, Repr

/-- `errors.New("connection does not exist")`, constructed both by
`Consumer.Close` on an empty registry (async.go:109) and by
`connection.close` when no websocket is installed (async.go:394). -/
def connDoesNotExistError : GoError := GoError.msg "connection does not exist"

/-- The outcome of one invocation of the retry `action` built in
`streamAppData` (async.go:171-181) / `firehose` (async.go:194-204):
`closedStart` is the `conn.Closed()` fast path returning `(nil, true)`;
`dialFail e` is `establishWebsocketConnection` returning error `e`, so the
action returns `(e, false)` and the connect-callback did not fire;
`connectThen r` is a successful upgrade (the connect-callback installed by
`retryAction` fired, resetting the attempt counter to zero,
async.go:257-262) followed by `listenForMessages` returning `r`
(`none` embeds a nil return), so the action returns `(r, false)`. -/
inductive AttemptOutcome
  | closedStart
  | dialFail (e : GoError)
  | connectThen (r : Option GoError)
deriving DecidableEq, Repr

/-- The observable behaviour of one `retryAction` run (async.go:251-272):
`pushed` is the ordered list of values sent on the `errors` channel
(`errors <- err`, async.go:269; note a nil error is sent as `none`),
`attemptsRun` counts invocations of `action`, and `finished` records
whether the loop returned within the supplied script of outcomes
(`false` means the loop was still running when the script ran out). -/
structure RetryResult where
  pushed : List (Option GoError)
  attemptsRun : Nat
  finished : Bool
deriving DecidableEq, Repr

/-- The loop of `retryAction` (async.go:264-271):
`for ; reconnectAttempts <= retries; reconnectAttempts++` with the body
calling `action()`, returning on `done`, and otherwise pushing the error.
The wrapped connect-callback sets `reconnectAttempts = 0` during a
`connectThen` attempt (async.go:257-262), after which the loop's
post-statement increments it to 1. -/
def retryActionLoop (retries : Nat) : List AttemptOutcome → Nat → RetryResult
  | [], attempts => if retries < attempts then ⟨[], 0, true⟩ else ⟨[], 0, false⟩
  | AttemptOutcome.closedStart :: _, attempts =>
      if retries < attempts then ⟨[], 0, true⟩ else ⟨[], 1, true⟩
  | AttemptOutcome.dialFail e :: rest, attempts =>
      if retries < attempts then ⟨[], 0, true⟩
      else ⟨some e :: (retryActionLoop retries rest (attempts + 1)).pushed,
            (retryActionLoop retries rest (attempts + 1)).attemptsRun + 1,
            (retryActionLoop retries rest (attempts + 1)).finished⟩
  | AttemptOutcome.connectThen res :: rest, attempts =>
      if retries < attempts then ⟨[], 0, true⟩
      else ⟨res :: (retryActionLoop retries rest 1).pushed,
            (retryActionLoop retries rest 1).attemptsRun + 1,
            (retryActionLoop retries rest 1).finished⟩

/-- `retryAction` (async.go:251-272) starting from `reconnectAttempts = 0`. -/
def retryAction (retries : Nat) (script : List AttemptOutcome) : RetryResult :=
  retryActionLoop retries script 0

/-- The observable behaviour of one `tailingLogs` / `runStream` /
`firehose` background goroutine (async.go:144-148, 160-164, 205-209):
it runs `retryAction` and closes both output channels when it returns. -/
structure StreamRun where
  errorTrace : List (Option GoError)
  attemptsRun : Nat
  outputClosed : Bool
  errorClosed : Bool
deriving DecidableEq, Repr

/-- The goroutine spawned by `tailingLogs` (async.go:136-150): run
`streamAppData`, i.e. `retryAction` over the attempt script, then the
deferred `close(errors)` and `close(outputs)` run; both channels are
closed exactly when the retry loop has returned. -/
def tailingLogsRun (retries : Nat) (script : List AttemptOutcome) : StreamRun :=
  ⟨(retryAction retries script).pushed,
   (retryAction retries script).attemptsRun,
   (retryAction retries script).finished,
   (retryAction retries script).finished⟩

theorem retryActionLoop_stop (retries : Nat) (script : List AttemptOutcome)
    (attempts : Nat) (h : retries < attempts) :
    retryActionLoop retries script attempts = ⟨[], 0, true⟩ := by
  cases script with
  | nil => simp [retryActionLoop, h]
  | cons o rest => cases o <;> simp [retryActionLoop, h]

theorem retryActionLoop_dial_step (retries attempts : Nat) (e : GoError)
    (rest : List AttemptOutcome) (h : attempts ≤ retries) :
    retryActionLoop retries (AttemptOutcome.dialFail e :: rest) attempts =
      ⟨some e :: (retryActionLoop retries rest (attempts + 1)).pushed,
       (retryActionLoop retries rest (attempts + 1)).attemptsRun + 1,
       (retryActionLoop retries rest (attempts + 1)).finished⟩ := by
  simp [retryActionLoop, Nat.not_lt.mpr h]

theorem retryActionLoop_fails_append (retries : Nat) (es : List GoError)
    (rest : List AttemptOutcome) (attempts : Nat)
    (h : attempts + es.length ≤ retries + 1) :
    retryActionLoop retries (es.map AttemptOutcome.dialFail ++ rest) attempts =
      ⟨es.map some ++ (retryActionLoop retries rest (attempts + es.length)).pushed,
       es.length + (retryActionLoop retries rest (attempts + es.length)).attemptsRun,
       (retryActionLoop retries rest (attempts + es.length)).finished⟩ := by
  induction es generalizing attempts with
  | nil => simp
  | cons e es ih =>
    have ha : attempts ≤ retries := by simp at h; omega
    have h' : attempts + 1 + es.length ≤ retries + 1 := by simp at h; omega
    have hidx : attempts + 1 + es.length = attempts + (es.length + 1) := by omega
    rw [List.map_cons, List.cons_append,
      retryActionLoop_dial_step retries attempts e _ ha, ih (attempts + 1) h']
    simp only [hidx, List.length_cons, List.map_cons, List.cons_append,
      RetryResult.mk.injEq, true_and, and_true]
    omega

theorem retryActionLoop_connect_step (retries attempts : Nat) (res : Option GoError)
    (rest : List AttemptOutcome) (h : attempts ≤ retries) :
    retryActionLoop retries (AttemptOutcome.connectThen res :: rest) attempts =
      ⟨res :: (retryActionLoop retries rest 1).pushed,
       (retryActionLoop retries rest 1).attemptsRun + 1,
       (retryActionLoop retries rest 1).finished⟩ := by
  simp [retryActionLoop, Nat.not_lt.mpr h]

/-- Claim C1, counterexample.  With retry limit L = 1, a run in which every
attempt fails with an error and done is never true (each attempt's upgrade
succeeds, so the wrapped connect-callback fires, and the subsequent read
fails with an error, so the action returns `(err, false)`) runs three
attempts, pushes three errors, and the loop is still running — not the
claimed exactly L + 1 = 2 attempts and errors followed by channel
closure.  The counter reset on every successful upgrade keeps the loop
alive beyond L + 1 attempts. -/
theorem retry_exhaustion_cex :
    (tailingLogsRun 1 (List.replicate 3
        (AttemptOutcome.connectThen (some (GoError.external "read reset"))))).attemptsRun = 3 ∧
    (tailingLogsRun 1 (List.replicate 3
        (AttemptOutcome.connectThen (some (GoError.external "read reset"))))).attemptsRun ≠ 1 + 1 ∧
    (tailingLogsRun 1 (List.replicate 3
        (AttemptOutcome.connectThen (some (GoError.external "read reset"))))).errorTrace.length = 3 ∧
    (tailingLogsRun 1 (List.replicate 3
        (AttemptOutcome.connectThen (some (GoError.external "read reset"))))).errorClosed = false := by
  decide

/-- Claim C1 (amended): for every retry limit L, if every attempt fails to
establish a connection (every dial fails, so the connect-callback never
fires and done is never true), the retry loop runs exactly L + 1 attempts
and pushes exactly L + 1 errors onto the error channel before returning,
after which both output channels are closed; in particular a limit of zero
yields exactly one attempt and one error. -/
theorem retry_dial_exhaustion (L : Nat) (es : List GoError)
    (h : es.length = L + 1) :
    tailingLogsRun L (es.map AttemptOutcome.dialFail) = ⟨es.map some, L + 1, true, true⟩ := by
  unfold tailingLogsRun retryAction
  have happ := retryActionLoop_fails_append L es [] 0 (by omega)
  rw [List.append_nil] at happ
  rw [happ, retryActionLoop_stop L [] (0 + es.length) (by omega)]
  simp [h]

/-- Witness for C1's amended theorem: a limit of zero with a single failed
dial yields exactly one attempt and one error, then both channels close. -/
theorem retry_dial_exhaustion_witness :
    tailingLogsRun 0 [AttemptOutcome.dialFail (GoError.external "dial tcp: connection refused")] =
      ⟨[some (GoError.external "dial tcp: connection refused")], 1, true, true⟩ :=
  retry_dial_exhaustion 0 [GoError.external "dial tcp: connection refused"] rfl

/-- Claim C2: for every N not exceeding the retry bound L, N consecutive
failed dial attempts followed by one successful upgrade (whose
connect-callback, installed by `retryAction`, resets the attempt counter
to zero) and then N further consecutive failed dials do not exhaust the
retry budget: all 2N + 1 scripted attempts run and push their errors, and
the loop then continues on the remaining script with counter N + 1 — the
budget counts consecutive failures since the last successful connection,
not lifetime attempts. -/
theorem retry_reset_on_connect (L N : Nat) (hN : N ≤ L) (es1 es2 : List GoError)
    (h1 : es1.length = N) (h2 : es2.length = N) (r : GoError)
    (rest : List AttemptOutcome) :
    retryAction L (es1.map AttemptOutcome.dialFail ++
        AttemptOutcome.connectThen (some r) :: (es2.map AttemptOutcome.dialFail ++ rest)) =
      ⟨es1.map some ++ some r :: (es2.map some ++ (retryActionLoop L rest (N + 1)).pushed),
       2 * N + 1 + (retryActionLoop L rest (N + 1)).attemptsRun,
       (retryActionLoop L rest (N + 1)).finished⟩ := by
  unfold retryAction
  rw [retryActionLoop_fails_append L es1 _ 0 (by omega)]
  have h0 : 0 + es1.length = N := by omega
  rw [h0, retryActionLoop_connect_step L N (some r) _ hN]
  rw [retryActionLoop_fails_append L es2 rest 1 (by omega)]
  have h1' : 1 + es2.length = N + 1 := by omega
  rw [h1']
  simp only [RetryResult.mk.injEq, true_and, and_true]
  omega

/-- Witness for C2: with bound 1, one failed dial, one successful upgrade
whose stream then drops, and one further failed dial all run and push
their errors; the loop then exits having exhausted nothing early. -/
theorem retry_reset_on_connect_witness :
    retryAction 1 [AttemptOutcome.dialFail (GoError.external "refused"),
        AttemptOutcome.connectThen (some (GoError.external "reset")),
        AttemptOutcome.dialFail (GoError.external "refused again")] =
      ⟨[some (GoError.external "refused"), some (GoError.external "reset"),
        some (GoError.external "refused again")], 3, true⟩ :=
  retry_reset_on_connect 1 1 (by decide) [GoError.external "refused"]
    [GoError.external "refused again"] rfl rfl (GoError.external "reset") []

/-- The coarse event-type discriminant of a decoded envelope
(events.Envelope_LogMessage versus everything else), used by the
tailingLogs callback filter (async.go:139-143). -/
inductive EventType
  | logMessage
  | other (tag : Nat)
deriving DecidableEq, Repr

/-- A decoded `events.Envelope`: a type discriminant plus an opaque
payload.  The wire schema itself is external; only the discriminant is
inspected by this repository. -/
structure Envelope where
  eventType : EventType
  payload : List Nat
deriving DecidableEq, Repr

/-- What one `ws.ReadMessage()` call (async.go:229) yielded: a raw frame
or an error from the websocket library or the network. -/
inductive ReadMsg
  | ok (data : List Nat)
  | readErr (e : GoError)
deriving DecidableEq, Repr

/-- One iteration's inputs to `listenForMessages` (async.go:223-249):
the `ReadMessage` outcome, plus the value `conn.Closed()` observed right
after that read (the closed flag is set concurrently by `connection.close`;
its observed value at the check on async.go:233 is an input here). -/
structure ReadEvent where
  closedObserved : Bool
  result : ReadMsg
deriving DecidableEq, Repr

/-- The observable behaviour of one `listenForMessages` run:
`delivered` is the ordered list of envelopes passed to the callback
(async.go:247); `outcome` is `some none` for a nil return (closed handle,
async.go:233-235), `some (some e)` for returning read error `e`
(async.go:237-239), and `none` when the loop was still running at the end
of the supplied script; `reads` counts `ReadMessage` calls and
`deadlines` counts `SetReadDeadline` calls (async.go:226-228). -/
structure ListenResult where
  delivered : List Envelope
  outcome : Option (Option GoError)
  reads : Nat
  deadlines : Nat
deriving DecidableEq, Repr

/-- `listenForMessages` (async.go:223-249) over a script of read events.
Each iteration: if `idleTimeout != 0`, arm the read deadline; read; if the
handle was observed closed, return nil; else if the read failed, return
that error; else decode (`proto.Unmarshal`, modelled by the `decode`
parameter) — on decode failure `continue`, otherwise invoke the callback
and loop. -/
def listenForMessages (idleTimeout : Int) (decode : List Nat → Option Envelope) :
    List ReadEvent → ListenResult
  | [] => ⟨[], none, 0, 0⟩
  | ev :: rest =>
      if ev.closedObserved then ⟨[], some none, 1, if idleTimeout = 0 then 0 else 1⟩
      else
        match ev.result with
        | ReadMsg.readErr e => ⟨[], some (some e), 1, if idleTimeout = 0 then 0 else 1⟩
        | ReadMsg.ok data =>
          match decode data with
          | none =>
            ⟨(listenForMessages idleTimeout decode rest).delivered,
             (listenForMessages idleTimeout decode rest).outcome,
             (listenForMessages idleTimeout decode rest).reads + 1,
             (listenForMessages idleTimeout decode rest).deadlines +
               (if idleTimeout = 0 then 0 else 1)⟩
          | some env =>
            ⟨env :: (listenForMessages idleTimeout decode rest).delivered,
             (listenForMessages idleTimeout decode rest).outcome,
             (listenForMessages idleTimeout decode rest).reads + 1,
             (listenForMessages idleTimeout decode rest).deadlines +
               (if idleTimeout = 0 then 0 else 1)⟩

/-- A concrete decoder used to instantiate witnesses: the frame `[0]` is
malformed, every other frame decodes. -/
def decodeTest (d : List Nat) : Option Envelope :=
  if d = [0] then none else some ⟨EventType.other 0, d⟩

theorem listenForMessages_all_ok (t : Int) (decode : List Nat → Option Envelope)
    (ds : List (List Nat)) :
    listenForMessages t decode (ds.map (fun d => ⟨false, ReadMsg.ok d⟩)) =
      ⟨ds.filterMap decode, none, ds.length, if t = 0 then 0 else ds.length⟩ := by
  induction ds with
  | nil => simp [listenForMessages]
  | cons d ds ih =>
    cases hd : decode d <;> simp [listenForMessages, ih, hd] <;> split <;> simp

/-- Claim C4: in the decode-dispatch loop, a frame that fails to decode is
silently skipped: the callback is not invoked for it, no error is surfaced
(the loop is still healthy afterwards, `outcome = none`), and well-formed
frames before and after it are delivered to the callback in wire order. -/
theorem decode_failure_skipped (t : Int) (decode : List Nat → Option Envelope)
    (xs ys : List (List Nat)) (bad : List Nat) (hbad : decode bad = none) :
    (listenForMessages t decode
        ((xs ++ bad :: ys).map (fun d => ⟨false, ReadMsg.ok d⟩))).delivered =
      xs.filterMap decode ++ ys.filterMap decode ∧
    (listenForMessages t decode
        ((xs ++ bad :: ys).map (fun d => ⟨false, ReadMsg.ok d⟩))).outcome = none := by
  rw [listenForMessages_all_ok]
  simp [List.filterMap_append, List.filterMap_cons, hbad]

/-- Witness for C4: with the concrete decoder, the malformed frame `[0]`
between the well-formed frames `[1]` and `[2]` is skipped and both
well-formed frames are delivered in order with no error surfaced. -/
theorem decode_failure_skipped_witness :
    (listenForMessages 0 decodeTest
        ([[1], [0], [2]].map (fun d => ⟨false, ReadMsg.ok d⟩))).delivered =
      [⟨EventType.other 0, [1]⟩, ⟨EventType.other 0, [2]⟩] ∧
    (listenForMessages 0 decodeTest
        ([[1], [0], [2]].map (fun d => ⟨false, ReadMsg.ok d⟩))).outcome = none :=
  decode_failure_skipped 0 decodeTest [[1]] [[2]] [0] (by decide)

/-- Claim C3, counterexample.  When the handle is closed externally while
the read loop is active, the action returns `(nil, false)` (async.go:180:
`return c.listenForMessages(conn, callback), false`), so the retry loop
executes `errors <- err` with a nil error (async.go:269): one value IS
emitted on the error conduit for the closure, refuting the claim that no
value is ever emitted for it. -/
theorem closure_nil_push_cex :
    (tailingLogsRun 5 [AttemptOutcome.connectThen none,
        AttemptOutcome.closedStart]).errorTrace = [none] ∧
    ([none] : List (Option GoError)) ≠ [] := by
  decide

/-- Claim C3 (amended): if a stream's handle is explicitly closed while
its read loop is active, the read loop returns a nil (non-error) outcome
even when the underlying read failed; the retry loop then pushes that
single nil value onto the error conduit — so exactly one nil value, and
no error value, is emitted for the closure — after which the next attempt
observes the closed handle, the loop stops, and both output channels are
closed with no further values emitted. -/
theorem closure_clean_shutdown (L : Nat) (hL : 1 ≤ L) (t : Int)
    (decode : List Nat → Option Envelope) (m : ReadMsg) (rest : List ReadEvent) :
    (listenForMessages t decode (⟨true, m⟩ :: rest)).outcome = some none ∧
    tailingLogsRun L [AttemptOutcome.connectThen none, AttemptOutcome.closedStart] =
      ⟨[none], 2, true, true⟩ := by
  constructor
  · simp [listenForMessages]
  · unfold tailingLogsRun retryAction
    rw [retryActionLoop_connect_step L 0 none _ (by omega)]
    simp [retryActionLoop, Nat.not_lt.mpr hL]

/-- Witness for C3's amended theorem at bound 5: the read loop returns nil
on a closed handle even though the read errored, one nil value appears on
the error conduit, and both channels close. -/
theorem closure_clean_shutdown_witness :
    (listenForMessages 0 decodeTest
        (⟨true, ReadMsg.readErr (GoError.external "use of closed connection")⟩ :: [])).outcome =
      some none ∧
    tailingLogsRun 5 [AttemptOutcome.connectThen none, AttemptOutcome.closedStart] =
      ⟨[none], 2, true, true⟩ :=
  closure_clean_shutdown 5 (by decide) 0 decodeTest
    (ReadMsg.readErr (GoError.external "use of closed connection")) []

/-- One `connection` handle (async.go:370-374): whether a websocket is
installed (`ws` is true when the `*websocket.Conn` field is non-nil), the
`closed` flag, and the predetermined outcome of the underlying
`ws.Close()` call (async.go:398), which belongs to the websocket library. -/
structure connection where
  ws : Bool
  closed : Bool
  wsCloseErr : Option GoError
deriving DecidableEq, Repr

/-- The state of a handle after `c.closed = true` has been set. -/
def markClosed (c : connection) : connection := { c with closed := true }

/-- `connection.close` (async.go:388-399): set `closed := true`; if no
websocket is installed, fail with `errors.New("connection does not
exist")`; otherwise send the close control frame and return the result of
the underlying `ws.Close()`. -/
def connection.close (c : connection) : Option GoError × connection :=
  if c.ws then (c.wsCloseErr, markClosed c) else (some connDoesNotExistError, markClosed c)

/-- The error returned by one `conns[0].close()` call (async.go:112). -/
def connCloseOutcome (c : connection) : Option GoError := (connection.close c).1

/-- The `Consumer` session (consumer.go fields used by async.go):
the traffic controller address, the idle timeout (a Go `time.Duration`,
an arbitrary signed integer of nanoseconds), whether a connect-callback
is registered, and the connection registry. -/
structure Consumer where
  trafficControllerUrl : String
  idleTimeout : Int
  hasCallback : Bool
  conns : List connection
deriving DecidableEq, Repr

/-- `Consumer.SetIdleTimeout` (async.go:126-128): stores any duration,
with no sign check. -/
def SetIdleTimeout (c : Consumer) (t : Int) : Consumer := { c with idleTimeout := t }

/-- Claim C9, counterexample.  A negative idle timeout (a legal
`time.Duration` accepted unchecked by `SetIdleTimeout`) is not positive,
yet `listenForMessages` arms the read deadline before the read, because
the guard on async.go:226 is `idleTimeout != 0`, not `> 0` — refuting
"armed if and only if a positive idle timeout is configured". -/
theorem idle_deadline_cex :
    (listenForMessages (SetIdleTimeout ⟨"ws://tc", 0, false, []⟩ (-1)).idleTimeout
        decodeTest [⟨false, ReadMsg.ok [1]⟩]).deadlines = 1 ∧
    ¬ (0 < (-1 : Int)) := by
  decide

/-- Claim C9 (amended): in the decode-dispatch loop a read deadline is
armed before every framed read if and only if a nonzero idle timeout is
configured on the session (the deadline count equals the read count when
the configured timeout is nonzero); when the idle timeout is zero, no
read deadline is ever set. -/
theorem idle_deadline_nonzero (c : Consumer) (t : Int)
    (decode : List Nat → Option Envelope) (evs : List ReadEvent) :
    (SetIdleTimeout c t).idleTimeout = t ∧
    (listenForMessages (SetIdleTimeout c t).idleTimeout decode evs).deadlines =
      (if t = 0 then 0
       else (listenForMessages (SetIdleTimeout c t).idleTimeout decode evs).reads) := by
  refine ⟨rfl, ?_⟩
  show (listenForMessages t decode evs).deadlines =
    if t = 0 then 0 else (listenForMessages t decode evs).reads
  induction evs with
  | nil => simp [listenForMessages]
  | cons ev rest ih =>
    cases hc : ev.closedObserved with
    | true => simp [listenForMessages, hc]
    | false =>
      cases hm : ev.result with
      | readErr e => simp [listenForMessages, hc, hm]
      | ok data =>
        cases hd : decode data <;>
          simp [listenForMessages, hc, hm, hd, ih] <;> split <;> simp

/-- The observable result of one `Consumer.Close` call (async.go:105-118):
the returned error, the registry (`c.conns`) left behind, and the final
states of the handles that were closed and removed from the registry
(`processed` is a ghost record of them, in close order). -/
structure CloseResult where
  err : Option GoError
  registry : List connection
  processed : List connection
deriving DecidableEq, Repr

/-- The loop of `Close` (async.go:111-116): close `conns[0]`; on error
return it at once — the failing handle (whose `closed` flag was already
set by `connection.close`) and everything after it stay in the registry —
otherwise drop the head and continue. -/
def closeAllConns : List connection → CloseResult
  | [] => ⟨none, [], []⟩
  | c :: rest =>
    match connCloseOutcome c with
    | some e => ⟨some e, markClosed c :: rest, []⟩
    | none =>
      ⟨(closeAllConns rest).err, (closeAllConns rest).registry,
       markClosed c :: (closeAllConns rest).processed⟩

/-- `Consumer.Close` (async.go:105-118): `errors.New("connection does not
exist")` when the registry is empty, otherwise the closing loop. -/
def Close (conns : List connection) : CloseResult :=
  if conns.isEmpty then ⟨some connDoesNotExistError, conns, []⟩ else closeAllConns conns

theorem closeAllConns_all_ok (l : List connection)
    (h : ∀ c ∈ l, connCloseOutcome c = none) :
    closeAllConns l = ⟨none, [], l.map markClosed⟩ := by
  induction l with
  | nil => rfl
  | cons c cs ih =>
    have hc := h c (by simp)
    have ihc := ih (fun x hx => h x (by simp [hx]))
    simp [closeAllConns, hc, ihc]

theorem closeAllConns_first_fail (good : List connection) (bad : connection)
    (rest : List connection) (hg : ∀ c ∈ good, connCloseOutcome c = none)
    (e : GoError) (hb : connCloseOutcome bad = some e) :
    closeAllConns (good ++ bad :: rest) = ⟨some e, markClosed bad :: rest, good.map markClosed⟩ := by
  induction good with
  | nil => simp [closeAllConns, hb]
  | cons c cs ih =>
    have hc := hg c (by simp)
    have ihc := ih (fun x hx => hg x (by simp [hx]))
    simp [closeAllConns, hc, ihc]

theorem closeAllConns_processed_closed (l : List connection) :
    ∀ c ∈ (closeAllConns l).processed, c.closed = true := by
  induction l with
  | nil => simp [closeAllConns]
  | cons c cs ih =>
    cases hc : connCloseOutcome c with
    | some e => simp [closeAllConns, hc]
    | none =>
      intro x hx
      simp only [closeAllConns, hc, List.mem_cons] at hx
      rcases hx with hx | hx
      · simp [hx, markClosed]
      · exact ih x hx

/-- Claim C6: `Close` on an empty registry returns the
"connection does not exist" error (`NoActiveConnectionError`) without
panicking or blocking (the model is a total function); on a non-empty
registry whose individual closes all succeed it closes every handle in
order and empties the registry with no error; and when an individual
handle's close fails, that failure is propagated while every handle
processed up to that point — including the failing one — has its closed
flag set (best-effort, not transactional). -/
theorem close_terminate (conns : List connection) :
    (conns = [] → Close conns = ⟨some connDoesNotExistError, [], []⟩) ∧
    (conns ≠ [] → (∀ c ∈ conns, connCloseOutcome c = none) →
      Close conns = ⟨none, [], conns.map markClosed⟩) ∧
    (∀ good bad rest, conns = good ++ bad :: rest →
      (∀ c ∈ good, connCloseOutcome c = none) → ∀ e, connCloseOutcome bad = some e →
      Close conns = ⟨some e, markClosed bad :: rest, good.map markClosed⟩) ∧
    (∀ c ∈ (Close conns).processed, c.closed = true) := by
  refine ⟨?_, ?_, ?_, ?_⟩
  · intro h; subst h; rfl
  · intro hne h
    have : conns.isEmpty = false := by
      cases conns with
      | nil => exact absurd rfl hne
      | cons a l => rfl
    rw [Close, this, if_neg (by simp), closeAllConns_all_ok conns h]
  · intro good bad rest hsplit hg e hb
    subst hsplit
    have : (good ++ bad :: rest).isEmpty = false := by
      cases good with
      | nil => rfl
      | cons a l => rfl
    rw [Close, if_neg (by simp [this]), closeAllConns_first_fail good bad rest hg e hb]
  · intro c hc
    rw [Close] at hc
    by_cases he : conns.isEmpty
    · rw [if_pos he] at hc; simp at hc
    · rw [if_neg he] at hc
      exact closeAllConns_processed_closed conns c hc

/-- Witness for C6: a registry of one closable handle followed by one
handle with no websocket: the first is closed and removed, the second's
failure is propagated and it stays (closed) in the registry. -/
theorem close_terminate_witness :
    Close [⟨true, false, none⟩, ⟨false, false, none⟩] =
      ⟨some connDoesNotExistError, [⟨false, true, none⟩], [⟨true, true, none⟩]⟩ :=
  (close_terminate [⟨true, false, none⟩, ⟨false, false, none⟩]).2.2.1
    [⟨true, false, none⟩] ⟨false, false, none⟩ [] rfl (by decide)
    connDoesNotExistError (by decide)

/-- The operations a handle supports (async.go:376-405): `setWS` embeds
`setWebsocket`, `getWS` the `websocket` getter, `doClose` embeds `close`,
and `queryClosed` the `Closed` getter; the two getters do not change the
state. -/
inductive ConnOp
  | setWS (wsOk : Bool)
  | getWS
  | doClose
  | queryClosed
deriving DecidableEq, Repr

/-- The state after one handle operation. -/
def connApply (c : connection) : ConnOp → connection
  | ConnOp.setWS w => { c with ws := w }
  | ConnOp.getWS => c
  | ConnOp.doClose => (connection.close c).2
  | ConnOp.queryClosed => c

/-- Claim C8: the `closed` flag of a connection handle is monotonic —
for every handle and every sequence of handle operations (`setWebsocket`,
`websocket`, `close`, `Closed`), once `closed` is true it never reverts
to false. -/
theorem closed_monotonic (ops : List ConnOp) (c : connection) (h : c.closed = true) :
    (ops.foldl connApply c).closed = true := by
  induction ops generalizing c with
  | nil => simpa using h
  | cons op ops ih =>
    rw [List.foldl_cons]
    apply ih
    cases op with
    | setWS w => simpa [connApply] using h
    | getWS => simpa [connApply] using h
    | doClose =>
      cases hw : c.ws <;> simp [connApply, connection.close, markClosed, hw]
    | queryClosed => simpa [connApply] using h

/-- Witness for C8: a closed handle stays closed across an install, a
close and a read of the websocket field. -/
theorem closed_monotonic_witness :
    (([ConnOp.setWS true, ConnOp.doClose, ConnOp.getWS].foldl connApply
        ⟨false, true, none⟩).closed) = true :=
  closed_monotonic [ConnOp.setWS true, ConnOp.doClose, ConnOp.getWS]
    ⟨false, true, none⟩ rfl

/-- Claim C10: closing a handle before any websocket has been installed
sets its closed flag to true but returns the "connection does not exist"
error; consequently the session-level `Close` propagates that error and
leaves the handle (now marked closed) in the registry rather than
removing it. -/
theorem close_without_websocket (c : connection) (rest : List connection)
    (h : c.ws = false) :
    connection.close c = (some connDoesNotExistError, markClosed c) ∧
    (markClosed c).closed = true ∧
    Close (c :: rest) = ⟨some connDoesNotExistError, markClosed c :: rest, []⟩ := by
  have h1 : connection.close c = (some connDoesNotExistError, markClosed c) := by
    simp [connection.close, h]
  refine ⟨h1, by simp [markClosed], ?_⟩
  have h2 : connCloseOutcome c = some connDoesNotExistError := by
    rw [connCloseOutcome, h1]
  rw [Close, if_neg (by simp)]
  simp [closeAllConns, h2]

/-- Witness for C10: a handle with no websocket, closed while another
handle sits behind it in the registry. -/
theorem close_without_websocket_witness :
    connection.close ⟨false, false, none⟩ =
      (some connDoesNotExistError, ⟨false, true, none⟩) ∧
    (markClosed ⟨false, false, none⟩).closed = true ∧
    Close [⟨false, false, none⟩, ⟨true, false, none⟩] =
      ⟨some connDoesNotExistError, [⟨false, true, none⟩, ⟨true, false, none⟩], []⟩ :=
  close_without_websocket ⟨false, false, none⟩ [⟨true, false, none⟩] rfl

/-- The HTTP response (if any) that `c.dialer.Dial` returned
(async.go:292): its status code and body. -/
structure HttpResp where
  statusCode : Nat
  body : String
deriving DecidableEq, Repr

/-- What `c.dialer.Dial(url, header)` returned (async.go:292): whether the
websocket value is non-nil, the optional HTTP response, and the message of
the dial error if one occurred (the error itself is produced by the
websocket library). -/
structure DialOutcome where
  wsOk : Bool
  resp : Option HttpResp
  dialErr : Option String
deriving DecidableEq, Repr

/-- The result of `establishWebsocketConnection`: the returned websocket
(non-nil or not), the returned error, and whether the connect-callback was
invoked during the call. -/
structure EstablishResult where
  wsOk : Bool
  err : Option GoError
  callbackInvoked : Bool
deriving DecidableEq, Repr

/-- The dial error text built on async.go:310. -/
def dialErrorMsg (cause tcUrl : String) : String :=
  "Error dialing traffic controller server: " ++ cause ++
    ".\nPlease ask your Cloud Foundry Operator to check the platform configuration (traffic controller is "
    ++ tcUrl ++ ")."

/-- The tail of `establishWebsocketConnection` after the 401 check
(async.go:305-313): invoke the callback when the dial succeeded and a
callback is registered, else wrap the dial error. -/
def establishAfter401Check (tcUrl : String) (hasCallback : Bool)
    (d : DialOutcome) : EstablishResult :=
  match d.dialErr with
  | none => ⟨d.wsOk, none, hasCallback⟩
  | some cause => ⟨false, some (GoError.msg (dialErrorMsg cause tcUrl)), false⟩

/-- `establishWebsocketConnection` (async.go:282-314): if the dial's
response has status 401, return the websocket together with an
`UnauthorizedError` carrying the response body — returning before the
callback check, so the callback is not invoked; otherwise proceed to the
callback and dial-error handling. -/
def establishWebsocketConnection (tcUrl : String) (hasCallback : Bool)
    (d : DialOutcome) : EstablishResult :=
  match d.resp with
  | some r =>
    if r.statusCode = 401 then ⟨d.wsOk, some (GoError.unauthorized r.body), false⟩
    else establishAfter401Check tcUrl hasCallback d
  | none => establishAfter401Check tcUrl hasCallback d

/-- How one `streamAppData` attempt (async.go:171-181) maps an
establishment result to an attempt outcome: a closed handle short-circuits
with done; an establishment error makes the action return `(err, false)`
with no callback fired; a successful establishment fired the callback and
the attempt ends with `listenForMessages`'s return value. -/
def streamAppDataAttempt (connClosed : Bool) (est : EstablishResult)
    (listenResult : Option GoError) : AttemptOutcome :=
  if connClosed then AttemptOutcome.closedStart
  else
    match est.err with
    | some e => AttemptOutcome.dialFail e
    | none => AttemptOutcome.connectThen listenResult

/-- Claim C5: a dial attempt whose HTTP response has status 401 fails with
an `UnauthorizedError` carrying the response body and does not invoke the
connect-callback; and with retry limit 0 that attempt makes the error
conduit receive exactly that one `UnauthorizedError`, after which both
conduits close. -/
theorem unauthorized_dial (tcUrl : String) (hasCallback : Bool)
    (d : DialOutcome) (resp : HttpResp)
    (hr : d.resp = some resp) (hc : resp.statusCode = 401) :
    establishWebsocketConnection tcUrl hasCallback d =
      ⟨d.wsOk, some (GoError.unauthorized resp.body), false⟩ ∧
    tailingLogsRun 0
        [streamAppDataAttempt false (establishWebsocketConnection tcUrl hasCallback d) none] =
      ⟨[some (GoError.unauthorized resp.body)], 1, true, true⟩ := by
  have h1 : establishWebsocketConnection tcUrl hasCallback d =
      ⟨d.wsOk, some (GoError.unauthorized resp.body), false⟩ := by
    rw [establishWebsocketConnection, hr]
    simp [hc]
  refine ⟨h1, ?_⟩
  rw [h1]
  simp [streamAppDataAttempt, tailingLogsRun, retryAction, retryActionLoop]

/-- Witness for C5: the spec's scenario — token rejected, 401 with body
"invalid token", bound 0: one `UnauthorizedError` wrapping the body, no
callback, conduits close. -/
theorem unauthorized_dial_witness :
    establishWebsocketConnection "wss://doppler.example.com" true
        ⟨false, some ⟨401, "invalid token"⟩, some "websocket: bad handshake"⟩ =
      ⟨false, some (GoError.unauthorized "invalid token"), false⟩ ∧
    tailingLogsRun 0
        [streamAppDataAttempt false
          (establishWebsocketConnection "wss://doppler.example.com" true
            ⟨false, some ⟨401, "invalid token"⟩, some "websocket: bad handshake"⟩) none] =
      ⟨[some (GoError.unauthorized "invalid token")], 1, true, true⟩ :=
  unauthorized_dial "wss://doppler.example.com" true
    ⟨false, some ⟨401, "invalid token"⟩, some "websocket: bad handshake"⟩
    ⟨401, "invalid token"⟩ rfl rfl

/-- The space character, the separator passed to `strings.SplitN` on
async.go:354. -/
def spaceChar : Char := ' '

/-- Whether a character sequence begins with the given pattern. -/
def startsWithSeq : List Char → List Char → Bool
  | _, [] => true
  | [], _ :: _ => false
  | a :: s, b :: p => a == b && startsWithSeq s p

/-- Split a character sequence at the first occurrence of `sep`:
`some (pre, post)` when `sep` occurs, `none` otherwise.  This is the
engine of Go's `strings.SplitN(s, sep, 2)`: with an occurrence the result
is `[pre, post]`, without one it is the one-element list `[s]`. -/
def splitFirstAux (sep : List Char) : List Char → Option (List Char × List Char)
  | [] => none
  | a :: s =>
    if startsWithSeq (a :: s) sep then some ([], (a :: s).drop sep.length)
    else
      match splitFirstAux sep s with
      | none => none
      | some (pre, post) => some (a :: pre, post)

/-- The outcome of the CONNECT-response classification in `proxyDial`. -/
inductive ProxyOutcome
  | tunneled
  | tunnelRefused (statusText : List Char)
deriving DecidableEq, Repr

/-- What `proxyDial` does with the CONNECT response plus whether the
proxy connection was closed on the way. -/
structure ProxyRespResult where
  outcome : ProxyOutcome
  proxyConnClosed : Bool
deriving DecidableEq, Repr

/-- The CONNECT-response handling of `proxyDial` (async.go:353-359), over
the response's status code and `Status` text (modelled as its character
sequence): a code other than exactly `http.StatusOK` (200) closes the
proxy connection and builds `errors.New(f[1])` from
`f := strings.SplitN(status, " ", 2)`; when the status text contains no
space, `f` has one element and the index expression `f[1]` panics —
modelled as `none`. -/
def proxyDialRespCheck (statusCode : Nat) (status : List Char) :
    Option ProxyRespResult :=
  if statusCode = 200 then some ⟨ProxyOutcome.tunneled, false⟩
  else
    match splitFirstAux [spaceChar] status with
    | some (_, post) => some ⟨ProxyOutcome.tunnelRefused post, true⟩
    | none => none

theorem splitFirstAux_single_none (c : Char) (s : List Char) (h : ¬ c ∈ s) :
    splitFirstAux [c] s = none := by
  induction s with
  | nil => rfl
  | cons a s ih =>
    have ha : ¬ (a == c) = true := by
      simp only [beq_iff_eq]
      intro hac
      exact h (by simp [hac])
    have hs : ¬ c ∈ s := fun hc => h (by simp [hc])
    simp [splitFirstAux, startsWithSeq, ha, ih hs]

theorem splitFirstAux_single_append (c : Char) (pre post : List Char)
    (h : ¬ c ∈ pre) :
    splitFirstAux [c] (pre ++ c :: post) = some (pre, post) := by
  induction pre with
  | nil => simp [splitFirstAux, startsWithSeq]
  | cons a pre ih =>
    have ha : ¬ (a == c) = true := by
      simp only [beq_iff_eq]
      intro hac
      exact h (by simp [hac])
    have hp : ¬ c ∈ pre := fun hc => h (by simp [hc])
    simp [splitFirstAux, startsWithSeq, ha, ih hp]

/-- Claim C7, counterexample.  A CONNECT response with the 200-class
status 201 does not succeed: the code demands exactly 200, so it closes
the proxy connection and fails.  And the error construction is not total:
with status text "404" (a status line carrying no reason phrase, hence no
space), `strings.SplitN` yields a one-element slice and `f[1]` panics
(modelled as `none`). -/
theorem proxy_tunnel_cex :
    proxyDialRespCheck 201
        (['2', '0', '1', ' ', 'C', 'r', 'e', 'a', 't', 'e', 'd']) =
      some ⟨ProxyOutcome.tunnelRefused ['C', 'r', 'e', 'a', 't', 'e', 'd'], true⟩ ∧
    proxyDialRespCheck 404 (['4', '0', '4']) = none := by
  decide

/-- Claim C7 (amended): a proxy CONNECT response succeeds and hands back
the tunneled connection if and only if its status code is exactly 200;
any other status code closes the proxy connection and returns an error
carrying the part of the status text after its first space; when the
status text contains no space, the error construction panics (index out
of range on `f[1]`) instead of returning. -/
theorem proxy_tunnel_corrected (code : Nat) (status : List Char) :
    (proxyDialRespCheck code status = some ⟨ProxyOutcome.tunneled, false⟩ ↔ code = 200) ∧
    (code ≠ 200 → ¬ spaceChar ∈ status → proxyDialRespCheck code status = none) ∧
    (∀ pre post, code ≠ 200 → ¬ spaceChar ∈ pre → status = pre ++ spaceChar :: post →
      proxyDialRespCheck code status = some ⟨ProxyOutcome.tunnelRefused post, true⟩) := by
  refine ⟨?_, ?_, ?_⟩
  · constructor
    · intro h
      by_contra hne
      rw [proxyDialRespCheck, if_neg hne] at h
      cases hsp : splitFirstAux [spaceChar] status with
      | none => rw [hsp] at h; exact Option.noConfusion h
      | some pr =>
        rw [hsp] at h
        simp at h
    · intro h
      simp [proxyDialRespCheck, h]
  · intro hne hsp
    rw [proxyDialRespCheck, if_neg hne, splitFirstAux_single_none spaceChar status hsp]
  · intro pre post hne hpre hstat
    subst hstat
    rw [proxyDialRespCheck, if_neg hne,
      splitFirstAux_single_append spaceChar pre post hpre]

/-- Witness for C7's amended theorem: a 502 CONNECT refusal returns an
error carrying the status text after the first space and closes the proxy
connection. -/
theorem proxy_tunnel_corrected_witness :
    proxyDialRespCheck 502
        (['5', '0', '2', ' ', 'B', 'a', 'd']) =
      some ⟨ProxyOutcome.tunnelRefused ['B', 'a', 'd'], true⟩ :=
  (proxy_tunnel_corrected 502 ['5', '0', '2', ' ', 'B', 'a', 'd']).2.2
    ['5', '0', '2'] ['B', 'a', 'd'] (by decide) (by decide) rfl

end Noaa
